import Mathlib

/-
Verification of the market-data gateway backend (dashboard-financeiro).

Shallow embedding of the parts of the code the claims are about:
  * backend/providers/brapi_provider.py  — resilient request wrapper, price parsing
  * backend/providers/yahoo_provider.py  — ticker normalization, indicator aggregation
  * backend/services/provider_manager.py — provider registry and resolution
  * backend/utils/response.py            — response envelope builder
  * backend/main.py                      — root and providers endpoints

Python values flowing through these functions are modelled by a small JSON
value type; Python dicts by association lists with dict-update semantics;
exceptions by Except; the network by explicit outcome oracles.
-/

namespace DashFin

/-- A parsed JSON value (the repository never uses fractional numeric
literals in the code paths modelled here, so numbers are integers). -/
inductive Json where
  | null
  | jbool (b : Bool)
  | jnum (n : Int)
  | jstr (s : String)
  | jarr (elems : List Json)
  | jobj (fields : List (String × Json))

/-- Python truthiness of a JSON value (`not data` in the source). -/
def jsonTruthy : Json → Bool
  | .null => false
  | .jbool b => b
  | .jnum n => n != 0
  | .jstr s => !s.isEmpty
  | .jarr l => !l.isEmpty
  | .jobj l => !l.isEmpty

/-- A Python dict with string keys, as an insertion-ordered association list. -/
abbrev JObj := List (String × Json)

/-- `d[k]` lookup returning `none` on a missing key. -/
def dictGet : JObj → String → Option Json
  | [], _ => none
  | p :: rest, k => if p.1 == k then some p.2 else dictGet rest k

/-- `d[k] = v`: replace in place if the key exists, else append (dict semantics). -/
def dictSet : JObj → String → Json → JObj
  | [], k, v => [(k, v)]
  | p :: rest, k, v => if p.1 == k then (p.1, v) :: rest else p :: dictSet rest k v

/-- `d.update(u)` / `{**d, **u}`: later keys win. -/
def dictUpdate (d : JObj) : JObj → JObj
  | [] => d
  | p :: rest => dictUpdate (dictSet d p.1 p.2) rest

/-! ### Ticker suffix normalization (yahoo_provider.get_historical_prices / _get_ticker_info)

Both methods run `if not ticker.endswith('.SA'): ticker = f"{ticker}.SA"`
before querying upstream. -/

/-- Python `s.endswith(suffix)`. -/
def strEndsWith (s suffix : String) : Bool :=
  suffix.data.isSuffixOf s.data

/-- The `.SA` suffix rule applied by `YahooProvider` before querying upstream. -/
def normalizeTicker (t : String) : String :=
  if strEndsWith t ".SA" then t else t ++ ".SA"

/-! ### BrapiProvider._make_request (brapi_provider.py lines 37-70)

One upstream GET is modelled by its observable outcome: either the transport
raises `httpx.RequestError`, or an HTTP response with a parsed JSON body
arrives.  The decorator is
  @retry(wait=wait_exponential(multiplier=1, min=1, max=10),
         stop=stop_after_attempt(3),
         retry=retry_if_exception_type(httpx.RequestError))
and `BrapiService._make_request` (brapi_service.py lines 36-58) has the same
structure over `requests`. -/

/-- Outcome of one outbound GET. -/
inductive HttpOutcome where
  | transportFail (emsg : String)
  | response (status : Nat) (body : Json)

/-- Exceptions that can leave one attempt of the wrapped function. -/
inductive PyExc where
  | httpException (status_code : Nat) (detail : String)
  | requestError (emsg : String)

/-- tenacity's predicate `retry_if_exception_type(httpx.RequestError)`. -/
def isRetryableExc : PyExc → Bool
  | .requestError _ => true
  | _ => false

/-- The body of one attempt of `_make_request`: the try/except of the source.
A transport failure is caught by `except httpx.RequestError` and converted to
`HTTPException(500, ...)` inside the function; `raise_for_status` failures are
caught by `except httpx.HTTPStatusError` and mapped to 404 or the upstream
status; a falsy JSON body on a 2xx response raises `HTTPException(404)`. -/
def makeRequestAttempt (o : HttpOutcome) : Except PyExc Json :=
  match o with
  | .transportFail emsg =>
      .error (.httpException 500 ("Failed to fetch data from API: " ++ emsg))
  | .response status body =>
      if 200 ≤ status ∧ status < 300 then
        if jsonTruthy body then .ok body
        else .error (.httpException 404 "No data available")
      else if status = 404 then
        .error (.httpException 404 "No data available")
      else
        .error (.httpException status
          ("Failed to fetch data from API: HTTP error " ++ toString status))

/-- tenacity's retry loop: run the attempt; on an exception matching the
retry predicate, retry while attempts remain; otherwise re-raise.  Returns
the number of attempts actually made together with the final outcome.
`remaining` is the number of retries still allowed after the current one. -/
def tenacityLoop (body : Nat → Except PyExc Json) (i : Nat) :
    Nat → Nat × Except PyExc Json
  | 0 => (i + 1, body i)
  | r + 1 =>
      match body i with
      | .ok a => (i + 1, .ok a)
      | .error e =>
          if isRetryableExc e then tenacityLoop body (i + 1) r
          else (i + 1, .error e)

/-- `_make_request` as deployed: the attempt body wrapped by the retry
decorator with `stop_after_attempt(3)`, over a transport oracle giving the
outcome of each attempt. -/
def makeRequest (transport : Nat → HttpOutcome) : Nat × Except PyExc Json :=
  tenacityLoop (fun i => makeRequestAttempt (transport i)) 0 2

/-! ### YahooProvider indicator sub-queries (yahoo_provider.py lines 159-231) -/

/-- The `APIError` pydantic model (models.py). -/
structure APIErrorM where
  code : String
  message : String
  details : JObj

/-- `fastapi.HTTPException` as raised by `YahooProvider`, whose `detail` is
always an `APIError.model_dump()`. -/
structure HTTPExcApi where
  status_code : Nat
  detail : APIErrorM

/-- The 404 ASSET_NOT_FOUND exception `_get_ticker_info` raises, with the
normalized ticker in the error details. -/
def assetNotFound (t : String) : HTTPExcApi :=
  ⟨404, ⟨"ASSET_NOT_FOUND", "Ativo " ++ t ++ " não encontrado",
    [("ticker", Json.jstr t)]⟩⟩

/-- What `yf.Ticker(t).info` does on a given call: raise some exception, or
return the info blob. -/
inductive YfOutcome where
  | raisesExc
  | info (d : Json)

/-- `_get_ticker_info`: normalize the ticker, fetch the info blob, and map
every failure to 404 ASSET_NOT_FOUND.  The inner `raise HTTPException(404, ...)`
for a falsy blob sits inside the `try`, so it is itself caught by the blanket
`except Exception`, which re-raises an identically built 404. -/
def getTickerInfo (ticker : String) (yf : YfOutcome) : Except HTTPExcApi Json :=
  let t := normalizeTicker ticker
  match yf with
  | .raisesExc => .error (assetNotFound t)
  | .info d => if jsonTruthy d then .ok d else .error (assetNotFound t)

/-- `info.get(key)` on the info dict: `None` (here `Json.null`) when absent. -/
def jsonGet (j : Json) (k : String) : Json :=
  match j with
  | .jobj fields => (dictGet fields k).getD .null
  | _ => .null

/-- Project a fixed named subset of the info blob: each output key paired
with `info.get(sourceKey)`. -/
def projectInfo (keys : List (String × String)) (info : Json) : Json :=
  .jobj (keys.map (fun p => (p.1, jsonGet info p.2)))

/-- Field projection of `get_fundamental_indicators`. -/
def fundamentalKeys : List (String × String) :=
  [("pe_ratio", "forwardPE"), ("pb_ratio", "priceToBook"),
   ("dividend_yield", "dividendYield"), ("roe", "returnOnEquity"),
   ("ebitda_margins", "ebitdaMargins"), ("debt_to_equity", "debtToEquity"),
   ("gross_margins", "grossMargins"), ("profit_margins", "profitMargins")]

/-- Field projection of `get_market_data`. -/
def marketDataKeys : List (String × String) :=
  [("market_cap", "marketCap"), ("average_volume", "averageVolume"),
   ("beta", "beta"), ("fifty_two_week_high", "fiftyTwoWeekHigh"),
   ("fifty_two_week_low", "fiftyTwoWeekLow"), ("short_ratio", "shortRatio"),
   ("regular_market_price", "regularMarketPrice"),
   ("regular_market_volume", "regularMarketVolume")]

/-- Field projection of `get_analyst_info`. -/
def analystKeys : List (String × String) :=
  [("target_mean_price", "targetMeanPrice"), ("recommendation", "recommendationKey"),
   ("number_of_analysts", "numberOfAnalystOpinions"),
   ("earnings_growth", "earningsGrowth"), ("revenue_growth", "revenueGrowth"),
   ("recommendation_mean", "recommendationMean")]

/-- `get_fundamental_indicators`. -/
def getFundamentalIndicators (ticker : String) (yf : YfOutcome) :
    Except HTTPExcApi Json :=
  (getTickerInfo ticker yf).map (projectInfo fundamentalKeys)

/-- `get_market_data`. -/
def getMarketData (ticker : String) (yf : YfOutcome) : Except HTTPExcApi Json :=
  (getTickerInfo ticker yf).map (projectInfo marketDataKeys)

/-- `get_analyst_info`. -/
def getAnalystInfo (ticker : String) (yf : YfOutcome) : Except HTTPExcApi Json :=
  (getTickerInfo ticker yf).map (projectInfo analystKeys)

/-! ### YahooProvider.get_market_indicators (yahoo_provider.py lines 233-308) -/

/-- The `_metadata` entry added on partial failure. -/
structure AggMeta where
  failed_sections : List String
  partial_data : Bool

/-- The aggregate payload: every section key is always present, holding
`None` (here `none`) when its sub-call failed. -/
structure AggResult where
  fundamentals : Option Json
  market_data : Option Json
  analyst_info : Option Json
  metadata : Option AggMeta

/-- One `try/except HTTPException` block of the aggregation: on failure the
section becomes `None`, its name is appended to `errors`, and
`not_found_error` is overwritten when the status is 404. -/
def stepSection (name : String) (res : Except HTTPExcApi Json)
    (errs : List String) (nf : Option HTTPExcApi) :
    Option Json × List String × Option HTTPExcApi :=
  match res with
  | .ok v => (some v, errs, nf)
  | .error e => (none, errs ++ [name], if e.status_code = 404 then some e else nf)

/-- The 500 INDICATORS_UNAVAILABLE exception raised when all three sections
fail without a 404 among the failures. -/
def indicatorsUnavailable (ticker : String) (errs : List String) : HTTPExcApi :=
  ⟨500, ⟨"INDICATORS_UNAVAILABLE", "Não foi possível obter nenhum indicador",
    [("ticker", Json.jstr ticker),
     ("failed_sections", Json.jarr (errs.map Json.jstr))]⟩⟩

/-- `get_market_indicators`, parametrized by the outcomes of its three
sub-calls: run the three sections in order, then decide the aggregate result
from the failure count and the recorded not-found error. -/
def getMarketIndicators (ticker : String) (f m a : Except HTTPExcApi Json) :
    Except HTTPExcApi AggResult :=
  let s1 := stepSection "fundamentals" f [] none
  let s2 := stepSection "market_data" m s1.2.1 s1.2.2
  let s3 := stepSection "analyst_info" a s2.2.1 s2.2.2
  if s3.2.1.length = 3 then
    match s3.2.2 with
    | some e => .error e
    | none => .error (indicatorsUnavailable ticker s3.2.1)
  else
    .ok ⟨s1.1, s2.1, s3.1,
      if s3.2.1.isEmpty then none else some ⟨s3.2.1, true⟩⟩

/-- `get_market_indicators` with its sub-calls instantiated to the Yahoo
sub-queries, each over its own `yfinance` outcome. -/
def yahooGetMarketIndicators (ticker : String) (y1 y2 y3 : YfOutcome) :
    Except HTTPExcApi AggResult :=
  getMarketIndicators ticker (getFundamentalIndicators ticker y1)
    (getMarketData ticker y2) (getAnalystInfo ticker y3)

/-- Did a sub-call fail? -/
def isErrB {ε α : Type} : Except ε α → Bool
  | .error _ => true
  | .ok _ => false

/-- Number of failed sub-calls among the three. -/
def numFailed (f m a : Except HTTPExcApi Json) : Nat :=
  (cond (isErrB f) 1 0) + (cond (isErrB m) 1 0) + (cond (isErrB a) 1 0)

/-- The failed-section names, in the order the source accumulates them. -/
def failedNames (f m a : Except HTTPExcApi Json) : List String :=
  (if isErrB f then ["fundamentals"] else []) ++
  (if isErrB m then ["market_data"] else []) ++
  (if isErrB a then ["analyst_info"] else [])

/-! ### ProviderManager (services/provider_manager.py)

Only the name-level state matters for resolution: `_providers` maps provider
names to classes (the class itself plays no role in which branch is taken),
and `_default_providers` maps route names to provider names. -/

/-- The resolution-relevant state of a `ProviderManager` instance. -/
structure PMState where
  providers : List String
  defaults : List (String × String)

/-- The state built by `ProviderManager.__init__`. -/
def initPMState : PMState :=
  ⟨["brapi", "yahoo"],
   [("get_available_assets", "brapi"), ("get_historical_prices", "yahoo")]⟩

/-- `self._default_providers.get(route_name)` without the fallback. -/
def routeDefault (st : PMState) (route : String) : Option String :=
  (st.defaults.find? (fun p => p.1 == route)).map (fun p => p.2)

/-- Result of `get_provider`: a resolved provider name, or the
`ValueError(f"Provider '{name}' not registered")` failure class
(`InvalidProvider`), carrying the name that was looked up. -/
inductive ResolveResult where
  | okP (name : String)
  | invalidProvider (name : Option String)

/-- The name `get_provider` ends up checking: an explicit name wins
unconditionally; with no explicit name and a route name, the per-route
default is looked up with `'brapi'` as the hardcoded fallback
(`self._default_providers.get(route_name, 'brapi')`). -/
def getProviderName (st : PMState) (pn rn : Option String) : Option String :=
  match pn, rn with
  | none, some r => some ((routeDefault st r).getD "brapi")
  | p, _ => p

/-- `ProviderManager.get_provider` up to instantiation: membership of the
resolved name in `_providers` decides success (`None` is never a dict key,
so calling with neither argument also raises `ValueError`). -/
def getProvider (st : PMState) (pn rn : Option String) : ResolveResult :=
  match getProviderName st pn rn with
  | some n => if st.providers.contains n then .okP n else .invalidProvider (some n)
  | none => .invalidProvider none

/-! ### Response envelopes (utils/response.py, main.py) -/

/-- The `APIResponse` pydantic model (models.py): the payload is a JSON
object when present. -/
structure APIResponseM where
  success : Bool
  data : Option Json
  error : Option APIErrorM

/-- A local («America/Sao_Paulo») wall-clock datetime, already the result of
`datetime.now(UTC).astimezone(LOCAL_TIMEZONE)` — the zone conversion itself
takes place outside the embedded pure fragment. -/
structure DateTimeM where
  year : Nat
  month : Nat
  day : Nat
  hour : Nat
  minute : Nat
  second : Nat

/-- Two-digit zero padding as produced by `strftime` for `%m %d %H %M %S`. -/
def pad2 (n : Nat) : String :=
  if n < 10 then "0" ++ toString n else toString n

/-- `ResponseUtil._format_timestamp`: `strftime("%Y-%m-%dT%H:%M:%SZ")` of the
local datetime — seconds precision, no fractional part. -/
def formatTimestamp (dt : DateTimeM) : String :=
  toString dt.year ++ "-" ++ pad2 dt.month ++ "-" ++ pad2 dt.day ++ "T" ++
    pad2 dt.hour ++ ":" ++ pad2 dt.minute ++ ":" ++ pad2 dt.second ++ "Z"

/-- The varying part of `ResponseUtil._get_timezone_info` (offset in hours
and DST flag for the fixed São Paulo zone). -/
structure TZInfoM where
  offsetHours : Int
  isDst : Bool

/-- The `{"timezone": {...}}` object merged into metadata/details. -/
def tzInfoJson (tz : TZInfoM) : Json :=
  .jobj [("name", .jstr "America/Sao_Paulo"), ("offset", .jnum tz.offsetHours),
         ("is_dst", .jbool tz.isDst)]

/-- `ResponseUtil.success`: always stamps the formatted current timestamp as
the first key of the data payload, merges the timezone info into the
caller's metadata, and attaches `content`/`metadata` when present. -/
def responseSuccess (now : DateTimeM) (tz : TZInfoM) (data : Option Json)
    (message : Option String) (metadata : JObj) : APIResponseM :=
  let md := dictUpdate metadata [("timezone", tzInfoJson tz)]
  let rd : JObj :=
    [("timestamp", Json.jstr (formatTimestamp now)),
     ("message", match message with | some s => Json.jstr s | none => Json.null)] ++
    (match data with | some d => [("content", d)] | none => []) ++
    (if md.isEmpty then [] else [("metadata", Json.jobj md)])
  ⟨true, some (.jobj rd), none⟩

/-- `({"status_code": status_code} if status_code else {})` — an absent or
falsy (zero) status code contributes nothing. -/
def statusCodePart (sc : Option Nat) : JObj :=
  match sc with
  | some s => if s = 0 then [] else [("status_code", Json.jnum (Int.ofNat s))]
  | none => []

/-- `ResponseUtil.error`: timezone info is merged into the caller details,
then the error details are the dict literal
`{"timestamp": ..., **details, **status_part}`. -/
def responseError (now : DateTimeM) (tz : TZInfoM) (code message : String)
    (details : JObj) (sc : Option Nat) : APIResponseM :=
  let ds := dictUpdate details [("timezone", tzInfoJson tz)]
  let dd := dictUpdate
    (dictUpdate [("timestamp", Json.jstr (formatTimestamp now))] ds)
    (statusCodePart sc)
  ⟨false, none, some ⟨code, message, dd⟩⟩

/-- The data object of a success envelope (empty when absent/non-object). -/
def successDataObj (r : APIResponseM) : JObj :=
  match r.data with
  | some (.jobj o) => o
  | _ => []

/-- The details object of an error envelope (empty when absent). -/
def errorDetailsObj (r : APIResponseM) : JObj :=
  match r.error with
  | some e => e.details
  | none => []

/-- `read_root` (main.py): builds the `APIResponse` directly, bypassing
`ResponseUtil`, with only a message in the data payload. -/
def readRoot : APIResponseM :=
  ⟨true,
   some (.jobj [("message",
     .jstr "API de dados de mercado financeiro está operacional!")]),
   none⟩

/-! ### list_providers (main.py lines 61-73)

The handler performs two dynamic attribute reads on the ProviderManager
instance; `__init__` sets exactly the instance attributes `_providers` and
`_default_providers`, so Python attribute lookup is modelled by a lookup in
that two-entry attribute dictionary. -/

/-- A value held by a ProviderManager instance attribute. -/
inductive PMAttr where
  | providersA (names : List String)
  | defaultsA (d : List (String × String))

/-- The instance attribute dictionary set by `ProviderManager.__init__`. -/
def pmInstanceAttrs (st : PMState) : List (String × PMAttr) :=
  [("_providers", .providersA st.providers),
   ("_default_providers", .defaultsA st.defaults)]

/-- Python attribute lookup on the instance (methods are irrelevant here:
the handler reads data attributes only). -/
def getAttrPM (st : PMState) (name : String) : Option PMAttr :=
  ((pmInstanceAttrs st).find? (fun p => p.1 == name)).map (fun p => p.2)

/-- Render an attribute value into the response payload. -/
def pmAttrJson : PMAttr → Json
  | .providersA l => .jarr (l.map Json.jstr)
  | .defaultsA d => .jobj (d.map (fun p => (p.1, Json.jstr p.2)))

/-- `list_providers`: read `provider_manager._providers` (keys), then
`provider_manager._default_provider`; a missing attribute raises
`AttributeError` (modelled as `Except.error` with the attribute name). -/
def listProviders (st : PMState) : Except String APIResponseM :=
  match getAttrPM st "_providers", getAttrPM st "_default_provider" with
  | some (.providersA ps), some dp =>
      .ok ⟨true,
        some (.jobj [("available_providers", .jarr (ps.map Json.jstr)),
                     ("default_provider", pmAttrJson dp)]),
        none⟩
  | some _, none => .error "_default_provider"
  | _, _ => .error "_providers"

/-! ### BrapiProvider.get_historical_prices price-point loop
(brapi_provider.py lines 102-129)

Each raw entry of `results[0].historicalDataPrice` is a JSON object.  The
loop catches only `(ValueError, KeyError)`:
  * `price_data['date']` on a missing key raises `KeyError` (caught);
  * `_convert_unix_to_datetime` accepts numbers (`fromtimestamp`) and strings
    (`fromisoformat`, `ValueError` on a malformed string, caught); any other
    value hits `timestamp.replace` and raises `AttributeError` (not caught);
  * `float(...)`/`int(...)` of `price_data.get(k, 0)` succeed on numbers and
    booleans, raise `ValueError` on a malformed string (caught) and
    `TypeError` on `None`/lists/objects (not caught).
CPython numeric/date string parsing is modelled executably as integer-numeral
parsing; which concrete strings parse does not affect the loop property. -/

/-- Outcome of a CPython `float(x)` / `int(x)` conversion. -/
inductive PyNumRes where
  | okN (n : Int)
  | valueError
  | typeError
deriving DecidableEq

/-- `float(x)` (also used for `int(x)`; the integer model makes them agree). -/
def pyNumConv : Json → PyNumRes
  | .jnum n => .okN n
  | .jbool b => .okN (if b then 1 else 0)
  | .jstr s => match s.trim.toInt? with
      | some n => .okN n
      | none => .valueError
  | _ => .typeError

/-- Outcome of `_convert_unix_to_datetime` on the raw `date` value. -/
inductive PyDateRes where
  | okD (d : Int)
  | valueErrorD
  | uncaughtD
deriving DecidableEq

/-- `_convert_unix_to_datetime`: numbers (and booleans, which are `int`s in
Python) go through `fromtimestamp`; strings through `fromisoformat` (may
raise `ValueError`); anything else raises `AttributeError` at
`timestamp.replace`, which `except (ValueError, KeyError)` does not catch. -/
def convertUnixToDatetime : Json → PyDateRes
  | .jnum n => .okD n
  | .jbool b => .okD (if b then 1 else 0)
  | .jstr s => match s.toInt? with
      | some d => .okD d
      | none => .valueErrorD
  | _ => .uncaughtD

/-- The `PricePoint` pydantic model with dates as epoch values. -/
structure PricePointM where
  dateV : Int
  openV : Int
  highV : Int
  lowV : Int
  closeV : Int
  volumeV : Int
deriving DecidableEq

/-- Outcome of parsing one raw price entry. -/
inductive EntryRes where
  | okE (p : PricePointM)
  | skipE
  | fatalE
deriving DecidableEq

/-- `price_data.get(k, 0)`. -/
def fieldOrZero (o : JObj) (k : String) : Json :=
  (dictGet o k).getD (Json.jnum 0)

/-- The body of one loop iteration: build the `PricePoint` field by field in
source order; `ValueError`/`KeyError` means the entry is skipped, any other
exception escapes the loop. -/
def parsePriceEntry (o : JObj) : EntryRes :=
  match dictGet o "date" with
  | none => .skipE
  | some dj =>
    match convertUnixToDatetime dj with
    | .valueErrorD => .skipE
    | .uncaughtD => .fatalE
    | .okD d =>
      match pyNumConv (fieldOrZero o "open") with
      | .valueError => .skipE
      | .typeError => .fatalE
      | .okN opn =>
        match pyNumConv (fieldOrZero o "high") with
        | .valueError => .skipE
        | .typeError => .fatalE
        | .okN hi =>
          match pyNumConv (fieldOrZero o "low") with
          | .valueError => .skipE
          | .typeError => .fatalE
          | .okN lo =>
            match pyNumConv (fieldOrZero o "close") with
            | .valueError => .skipE
            | .typeError => .fatalE
            | .okN cl =>
              match pyNumConv (fieldOrZero o "volume") with
              | .valueError => .skipE
              | .typeError => .fatalE
              | .okN vol => .okE ⟨d, opn, hi, lo, cl, vol⟩

/-- The price loop: skipped entries contribute nothing, parsed entries are
appended in order, and an uncaught exception aborts the whole call with
nothing returned. -/
def parsePrices : List JObj → Except Unit (List PricePointM)
  | [] => .ok []
  | o :: rest =>
    match parsePriceEntry o with
    | .fatalE => .error ()
    | .skipE => parsePrices rest
    | .okE p => (parsePrices rest).map (fun l => p :: l)

/-- The point an entry contributes to the result, if any. -/
def entryOk (o : JObj) : Option PricePointM :=
  match parsePriceEntry o with
  | .okE p => some p
  | _ => none

/-! ## Theorems -/

/-- C1 (code bug): the claim says a provider whose transport always fails is
attempted exactly 3 times with exponential backoff before failing with the
TransportError class.  In the code the attempt body catches
`httpx.RequestError` and re-raises it as `HTTPException(500, ...)`, so the
tenacity predicate `retry_if_exception_type(httpx.RequestError)` never
matches: against a transport that always fails, `_make_request` makes
exactly one attempt and fails at once with `HTTPException` status 500. -/
theorem C1_retry_never_fires :
    makeRequest (fun _ => HttpOutcome.transportFail "Connection refused") =
      (1, Except.error (PyExc.httpException 500
        "Failed to fetch data from API: Connection refused")) := rfl

/-- C4: ticker suffix normalization is idempotent — the `.SA` suffix is
appended only when absent, a ticker already carrying it is unchanged, and
both "PETR4" and "PETR4.SA" normalize to "PETR4.SA". -/
theorem C4_normalize_idempotent :
    (∀ t : String, normalizeTicker (normalizeTicker t) = normalizeTicker t) ∧
    normalizeTicker "PETR4" = "PETR4.SA" ∧
    normalizeTicker "PETR4.SA" = "PETR4.SA" := by
  refine ⟨fun t => ?_, by decide, by decide⟩
  by_cases h : strEndsWith t ".SA" = true
  · simp [normalizeTicker, h]
  · have h2 : strEndsWith (t ++ ".SA") ".SA" = true := by
      unfold strEndsWith
      rw [String.data_append]
      exact List.isSuffixOf_iff_suffix.mpr (List.suffix_append _ _)
    simp [normalizeTicker, h, h2]

/-- C6: a 2xx response whose JSON body is empty/null makes the request
operation fail with the 404 "No data available" `HTTPException`, and that
failure is identical — same status, same detail — to the one produced for an
explicit HTTP 404 response; the retry wrapper surfaces it unchanged after a
single attempt. -/
theorem C6_empty_body_equals_404 (status : Nat) (body otherBody : Json)
    (h2xx : 200 ≤ status ∧ status < 300) (hempty : jsonTruthy body = false) :
    makeRequestAttempt (.response status body) =
      .error (.httpException 404 "No data available") ∧
    makeRequestAttempt (.response 404 otherBody) =
      .error (.httpException 404 "No data available") ∧
    makeRequestAttempt (.response status body) =
      makeRequestAttempt (.response 404 otherBody) ∧
    (makeRequest (fun _ => .response status body)).2 =
      .error (.httpException 404 "No data available") := by
  have hb : makeRequestAttempt (.response status body) =
      .error (.httpException 404 "No data available") := by
    simp [makeRequestAttempt, h2xx, hempty]
  have h404 : makeRequestAttempt (.response 404 otherBody) =
      .error (.httpException 404 "No data available") := by
    have : ¬(200 ≤ 404 ∧ 404 < 300) := by omega
    simp [makeRequestAttempt, this]
  refine ⟨hb, h404, hb.trans h404.symm, ?_⟩
  simp [makeRequest, tenacityLoop, hb, isRetryableExc]

/-- Witness for C6 at status 200 with a null body against a 404 response. -/
theorem C6_witness :
    makeRequestAttempt (.response 200 Json.null) =
      .error (.httpException 404 "No data available") ∧
    makeRequestAttempt (.response 404 (Json.jobj [])) =
      .error (.httpException 404 "No data available") ∧
    makeRequestAttempt (.response 200 Json.null) =
      makeRequestAttempt (.response 404 (Json.jobj [])) ∧
    (makeRequest (fun _ => .response 200 Json.null)).2 =
      .error (.httpException 404 "No data available") :=
  C6_empty_body_equals_404 200 Json.null (Json.jobj []) (by omega) rfl

/-- C9 (code bug): the claim says GET /providers returns a success envelope
listing the registered providers and the default selection.  The handler
reads `provider_manager._default_provider`, but `ProviderManager.__init__`
sets only `_providers` and `_default_providers`, so the read raises
`AttributeError` on every call, whatever the registry state. -/
theorem C9_list_providers_attribute_error (st : PMState) :
    listProviders st = .error "_default_provider" := rfl

/-- C7 counterexample: an entry whose `open` value is JSON null fails to
parse — `float(None)` raises `TypeError`, which `except (ValueError,
KeyError)` does not catch — and the failure is fatal to the whole call
instead of the entry being dropped. -/
theorem C7_counterexample :
    parsePrices [[("date", Json.jnum 1700000000), ("open", Json.null)]] =
      .error () := rfl

/-- C8 counterexample: the root endpoint builds its envelope directly,
bypassing `ResponseUtil`, so a caller receives a success envelope whose data
payload carries no timestamp. -/
theorem C8_counterexample :
    dictGet (successDataObj readRoot) "timestamp" = none := rfl

/-- C2: when all three indicator sub-calls fail, the aggregate propagates a
recorded not-found failure when one exists (it is one of the three failures
and has status 404), and otherwise raises the 500 INDICATORS_UNAVAILABLE
error carrying the list of failed section names. -/
theorem C2_all_three_fail (ticker : String) (ef em ea : HTTPExcApi) :
    ((ef.status_code = 404 ∨ em.status_code = 404 ∨ ea.status_code = 404) →
      ∃ e, (e = ef ∨ e = em ∨ e = ea) ∧ e.status_code = 404 ∧
        getMarketIndicators ticker (.error ef) (.error em) (.error ea) =
          .error e) ∧
    (ef.status_code ≠ 404 → em.status_code ≠ 404 → ea.status_code ≠ 404 →
      getMarketIndicators ticker (.error ef) (.error em) (.error ea) =
        .error (indicatorsUnavailable ticker
          ["fundamentals", "market_data", "analyst_info"])) := by
  constructor
  · intro h
    by_cases ha : ea.status_code = 404
    · exact ⟨ea, Or.inr (Or.inr rfl), ha,
        by simp [getMarketIndicators, stepSection, ha]⟩
    · by_cases hm : em.status_code = 404
      · exact ⟨em, Or.inr (Or.inl rfl), hm,
          by simp [getMarketIndicators, stepSection, ha, hm]⟩
      · have hf : ef.status_code = 404 := by tauto
        exact ⟨ef, Or.inl rfl, hf,
          by simp [getMarketIndicators, stepSection, ha, hm, hf]⟩
  · intro hf hm ha
    simp [getMarketIndicators, stepSection, indicatorsUnavailable, hf, hm, ha]

/-- Witness for C2 with all three sections failing with a 404. -/
theorem C2_witness :
    ∃ e, (e = assetNotFound "MGLU3.SA" ∨ e = assetNotFound "MGLU3.SA" ∨
          e = assetNotFound "MGLU3.SA") ∧ e.status_code = 404 ∧
      getMarketIndicators "MGLU3" (.error (assetNotFound "MGLU3.SA"))
        (.error (assetNotFound "MGLU3.SA"))
        (.error (assetNotFound "MGLU3.SA")) = .error e :=
  (C2_all_three_fail "MGLU3" (assetNotFound "MGLU3.SA")
    (assetNotFound "MGLU3.SA") (assetNotFound "MGLU3.SA")).1 (Or.inl rfl)

/-- C3: when at most two of the three indicator sub-calls fail the aggregate
is a success whose payload keeps every section key — a failed section holds
null — and whose metadata records `partial_data=true` with the failed
section names exactly when at least one failed, and is absent when none
failed. -/
theorem C3_partial_failure (ticker : String) (f m a : Except HTTPExcApi Json)
    (h : numFailed f m a ≤ 2) :
    ∃ res, getMarketIndicators ticker f m a = .ok res ∧
      res.metadata = (if numFailed f m a = 0 then none
        else some ⟨failedNames f m a, true⟩) ∧
      (res.fundamentals = none ↔ isErrB f = true) ∧
      (res.market_data = none ↔ isErrB m = true) ∧
      (res.analyst_info = none ↔ isErrB a = true) := by
  cases f <;> cases m <;> cases a <;>
    simp_all [getMarketIndicators, stepSection, numFailed, failedNames, isErrB]

/-- Witness for C3: exactly one of the three sub-calls fails. -/
theorem C3_witness :
    ∃ res,
      getMarketIndicators "MGLU3" (.error (assetNotFound "MGLU3.SA"))
        (.ok (Json.jobj [])) (.ok (Json.jobj [])) = .ok res ∧
      res.metadata = (if numFailed (.error (assetNotFound "MGLU3.SA"))
          (.ok (Json.jobj [])) (.ok (Json.jobj [])) = 0 then none
        else some ⟨failedNames (.error (assetNotFound "MGLU3.SA"))
          (.ok (Json.jobj [])) (.ok (Json.jobj [])), true⟩) ∧
      (res.fundamentals = none ↔
        isErrB (Except.error (assetNotFound "MGLU3.SA") :
          Except HTTPExcApi Json) = true) ∧
      (res.market_data = none ↔
        isErrB (Except.ok (Json.jobj []) : Except HTTPExcApi Json) = true) ∧
      (res.analyst_info = none ↔
        isErrB (Except.ok (Json.jobj []) : Except HTTPExcApi Json) = true) :=
  C3_partial_failure "MGLU3" (.error (assetNotFound "MGLU3.SA"))
    (.ok (Json.jobj [])) (.ok (Json.jobj [])) (by decide)

/-- C5: in every registry state, an explicitly requested provider name wins
outright — the outcome does not depend on the route name — and an
unregistered explicit name fails with the `InvalidProvider` (`ValueError`)
class; with no explicit name, the route is looked up in the per-route
default map, and when the route has no configured default and the hardcoded
fallback name is itself unregistered, resolution fails with
`InvalidProvider` as well.  Each conjunct carries only its own hypotheses,
so the explicit-name parts hold for every state, reachable ones included. -/
theorem C5_resolution_precedence (st : PMState) (x r : String)
    (rn rm : Option String) :
    (getProvider st (some x) rn = getProvider st (some x) rm) ∧
    (st.providers.contains x = false →
      getProvider st (some x) rn = .invalidProvider (some x)) ∧
    (routeDefault st r = none → st.providers.contains "brapi" = false →
      getProvider st none (some r) = .invalidProvider (some "brapi")) := by
  refine ⟨by cases rn <;> cases rm <;> rfl, fun hx => ?_, fun hr hb => ?_⟩
  · have hx' : ¬ x ∈ st.providers := by simpa using hx
    cases rn <;> simp [getProvider, getProviderName, hx']
  · have hb' : ¬ "brapi" ∈ st.providers := by simpa using hb
    simp [getProvider, getProviderName, hr, hb']

/-- Witness for C5: in the registry built by `__init__`, an explicit
unregistered name ignores the route and fails with `InvalidProvider`; and in
a registry without the fallback name, a route with no configured default
fails with `InvalidProvider` too. -/
theorem C5_witness :
    (getProvider initPMState (some "nope") none =
      getProvider initPMState (some "nope") (some "get_available_assets")) ∧
    getProvider initPMState (some "nope") none =
      .invalidProvider (some "nope") ∧
    getProvider ⟨["yahoo"], []⟩ none (some "get_market_indicators") =
      .invalidProvider (some "brapi") :=
  ⟨(C5_resolution_precedence initPMState "nope" "get_market_indicators" none
      (some "get_available_assets")).1,
   (C5_resolution_precedence initPMState "nope" "get_market_indicators" none
      (some "get_available_assets")).2.1 (by decide),
   (C5_resolution_precedence ⟨["yahoo"], []⟩ "nope" "get_market_indicators"
      none none).2.2 rfl (by decide)⟩

/-- Every indicator sub-query either succeeds or fails with exactly the 404
ASSET_NOT_FOUND error for the normalized ticker: `_get_ticker_info` maps
every failure, including unexpected ones, to that one exception, and the
field projections cannot fail. -/
theorem subQueryOkOrNotFound (ticker : String) (keys : List (String × String))
    (y : YfOutcome) :
    (∃ v, (getTickerInfo ticker y).map (projectInfo keys) = .ok v) ∨
    (getTickerInfo ticker y).map (projectInfo keys) =
      .error (assetNotFound (normalizeTicker ticker)) := by
  cases y with
  | raisesExc => exact Or.inr rfl
  | info d =>
    cases hd : jsonTruthy d
    · exact Or.inr (by simp [getTickerInfo, hd, Except.map])
    · exact Or.inl ⟨projectInfo keys d, by simp [getTickerInfo, hd, Except.map]⟩

/-- C10 (implicit): every failure of the three indicator sub-queries is the
404 ASSET_NOT_FOUND error — `_get_ticker_info` converts every exception into
this one kind — so no other failure class can reach the aggregation through
them, and whenever the aggregate fails via these sub-queries it fails with
status 404 and code ASSET_NOT_FOUND, never INDICATORS_UNAVAILABLE. -/
theorem C10_sub_failures_always_not_found (ticker : String)
    (y1 y2 y3 : YfOutcome) :
    (∀ e, getFundamentalIndicators ticker y1 = .error e →
      e = assetNotFound (normalizeTicker ticker)) ∧
    (∀ e, getMarketData ticker y2 = .error e →
      e = assetNotFound (normalizeTicker ticker)) ∧
    (∀ e, getAnalystInfo ticker y3 = .error e →
      e = assetNotFound (normalizeTicker ticker)) ∧
    (∀ e, yahooGetMarketIndicators ticker y1 y2 y3 = .error e →
      e.status_code = 404 ∧ e.detail.code = "ASSET_NOT_FOUND") := by
  have k1 := subQueryOkOrNotFound ticker fundamentalKeys y1
  have k2 := subQueryOkOrNotFound ticker marketDataKeys y2
  have k3 := subQueryOkOrNotFound ticker analystKeys y3
  rw [show (getTickerInfo ticker y1).map (projectInfo fundamentalKeys) =
    getFundamentalIndicators ticker y1 from rfl] at k1
  rw [show (getTickerInfo ticker y2).map (projectInfo marketDataKeys) =
    getMarketData ticker y2 from rfl] at k2
  rw [show (getTickerInfo ticker y3).map (projectInfo analystKeys) =
    getAnalystInfo ticker y3 from rfl] at k3
  refine ⟨?_, ?_, ?_, ?_⟩
  · intro e he
    rcases k1 with ⟨v, hv⟩ | hv <;> rw [hv] at he <;> simp_all
  · intro e he
    rcases k2 with ⟨v, hv⟩ | hv <;> rw [hv] at he <;> simp_all
  · intro e he
    rcases k3 with ⟨v, hv⟩ | hv <;> rw [hv] at he <;> simp_all
  · intro e he
    unfold yahooGetMarketIndicators at he
    rcases k1 with ⟨v1, hv1⟩ | hv1 <;> rcases k2 with ⟨v2, hv2⟩ | hv2 <;>
      rcases k3 with ⟨v3, hv3⟩ | hv3 <;>
      rw [hv1, hv2, hv3] at he <;>
      simp [getMarketIndicators, stepSection, assetNotFound] at he
    subst he
    exact ⟨rfl, rfl⟩

/-- Witness for C10: all three `yfinance` calls raise; the aggregate failure
is the 404 ASSET_NOT_FOUND error. -/
theorem C10_witness :
    (assetNotFound (normalizeTicker "PETR4")).status_code = 404 ∧
    (assetNotFound (normalizeTicker "PETR4")).detail.code = "ASSET_NOT_FOUND" :=
  (C10_sub_failures_always_not_found "PETR4" .raisesExc .raisesExc
    .raisesExc).2.2.2 (assetNotFound (normalizeTicker "PETR4")) rfl

/-- C7 (amended): every price entry whose parsing fails with a caught
exception class — `ValueError` or `KeyError`: missing date field, malformed
date or numeric string — is dropped, and the returned sequence is exactly
the successfully parsed points in received order; an entry failing with any
other exception class (for example a null numeric field) aborts the whole
call instead. -/
theorem C7_malformed_entries_dropped (entries : List JObj)
    (h : ∀ o ∈ entries, parsePriceEntry o ≠ .fatalE) :
    parsePrices entries = .ok (entries.filterMap entryOk) := by
  induction entries with
  | nil => rfl
  | cons o rest ih =>
    have ho := h o (by simp)
    have hrest : ∀ q ∈ rest, parsePriceEntry q ≠ .fatalE :=
      fun q hq => h q (by simp [hq])
    cases hpe : parsePriceEntry o with
    | fatalE => exact absurd hpe ho
    | skipE => simp [parsePrices, hpe, ih hrest, entryOk]
    | okE p => simp [parsePrices, hpe, ih hrest, entryOk, Except.map]

/-- Witness for C7 (amended): one well-formed entry and one entry with a
missing date field (KeyError, dropped). -/
theorem C7_witness :
    parsePrices
      [[("date", Json.jnum 100), ("open", Json.jnum 10),
        ("high", Json.jnum 12), ("low", Json.jnum 9),
        ("close", Json.jnum 11), ("volume", Json.jnum 1000)],
       [("open", Json.jnum 10)]] =
      .ok (List.filterMap entryOk
        [[("date", Json.jnum 100), ("open", Json.jnum 10),
          ("high", Json.jnum 12), ("low", Json.jnum 9),
          ("close", Json.jnum 11), ("volume", Json.jnum 1000)],
         [("open", Json.jnum 10)]]) :=
  C7_malformed_entries_dropped _ (by decide)

/-- Setting a key makes its lookup return the new value. -/
theorem dictGet_dictSet_self (d : JObj) (k : String) (v : Json) :
    dictGet (dictSet d k v) k = some v := by
  induction d with
  | nil => simp [dictSet, dictGet]
  | cons p rest ih =>
    by_cases h : (p.1 == k) = true
    · simp [dictSet, dictGet, h]
    · simp [dictSet, dictGet, h, ih]

/-- Setting one key leaves lookups of other keys unchanged. -/
theorem dictGet_dictSet_ne (d : JObj) (k q : String) (v : Json)
    (h : (k == q) = false) :
    dictGet (dictSet d k v) q = dictGet d q := by
  have hne : ¬ k = q := by simpa using h
  induction d with
  | nil => simp [dictSet, dictGet, hne]
  | cons p rest ih =>
    by_cases hp : (p.1 == k) = true
    · have hk : p.1 = k := by simpa using hp
      simp [dictSet, dictGet, hp, hk, hne]
    · simp [dictSet, dictGet, hp, ih]

/-- A dict update whose update set does not mention a key leaves that key's
lookup unchanged. -/
theorem dictGet_dictUpdate_none (d u : JObj) (k : String)
    (h : dictGet u k = none) :
    dictGet (dictUpdate d u) k = dictGet d k := by
  induction u generalizing d with
  | nil => rfl
  | cons p rest ih =>
    by_cases hp : (p.1 == k) = true
    · simp [dictGet, hp] at h
    · have hp' : (p.1 == k) = false := by simpa using hp
      have hr : dictGet rest k = none := by simpa [dictGet, hp'] using h
      simp only [dictUpdate]
      rw [ih (dictSet d p.1 p.2) hr, dictGet_dictSet_ne d p.1 k p.2 hp']

/-- C8 (amended): every envelope built through `ResponseUtil` carries the
formatted timestamp — `success` stamps it into the data payload, `error`
into the error details (provided the caller's own details do not override
the `timestamp` key); the root and providers endpoints, however, build their
envelopes directly and return unstamped payloads. -/
theorem C8_envelopes_stamped (now : DateTimeM) (tz : TZInfoM)
    (data : Option Json) (msg : Option String) (metadata details : JObj)
    (code emsg : String) (sc : Option Nat)
    (hd : dictGet details "timestamp" = none) :
    dictGet (successDataObj (responseSuccess now tz data msg metadata))
      "timestamp" = some (Json.jstr (formatTimestamp now)) ∧
    dictGet (errorDetailsObj (responseError now tz code emsg details sc))
      "timestamp" = some (Json.jstr (formatTimestamp now)) := by
  constructor
  · rfl
  · show dictGet (dictUpdate (dictUpdate
        [("timestamp", Json.jstr (formatTimestamp now))]
        (dictUpdate details [("timezone", tzInfoJson tz)]))
        (statusCodePart sc)) "timestamp" =
      some (Json.jstr (formatTimestamp now))
    have h1 : dictGet (dictUpdate details [("timezone", tzInfoJson tz)])
        "timestamp" = none :=
      (dictGet_dictUpdate_none details [("timezone", tzInfoJson tz)]
        "timestamp" rfl).trans hd
    have h2 : dictGet (statusCodePart sc) "timestamp" = none := by
      cases sc with
      | none => rfl
      | some s => by_cases hs : s = 0 <;> simp [statusCodePart, dictGet, hs]
    rw [dictGet_dictUpdate_none _ _ _ h2, dictGet_dictUpdate_none _ _ _ h1]
    rfl

/-- Witness for C8 (amended) at a concrete timestamp, success and error. -/
theorem C8_witness :
    dictGet (successDataObj (responseSuccess ⟨2025, 1, 2, 3, 4, 5⟩
      ⟨-3, false⟩ none none [])) "timestamp" =
      some (Json.jstr (formatTimestamp ⟨2025, 1, 2, 3, 4, 5⟩)) ∧
    dictGet (errorDetailsObj (responseError ⟨2025, 1, 2, 3, 4, 5⟩
      ⟨-3, false⟩ "ASSET_NOT_FOUND" "Ativo não encontrado" [] (some 404)))
      "timestamp" =
      some (Json.jstr (formatTimestamp ⟨2025, 1, 2, 3, 4, 5⟩)) :=
  C8_envelopes_stamped ⟨2025, 1, 2, 3, 4, 5⟩ ⟨-3, false⟩ none none [] []
    "ASSET_NOT_FOUND" "Ativo não encontrado" (some 404) rfl

end DashFin
